import Mathlib

/-!
Verification of the multi-backend MCP tool proxy.

The development shallowly embeds the proxy server (src/server/src/server.js),
the browser-side WebSocket client (mcp-client-manager) and the schema
normalization helpers (convertToolToFunctionDeclaration, filterAndConvertTools)
as pure Lean functions.  External effects (file reads, JSON parsing, child
process launches, tool invocations) are passed in as explicit oracle
arguments, and the frames written to a WebSocket are returned as values.
-/

/-- Schema types of the downstream function-declaration dialect. -/
inductive SchemaType where
  | STRING
  | NUMBER
  | BOOLEAN
  | OBJECT
  | ARRAY
  deriving DecidableEq, Repr

/-- Sub-property of an object-typed array item, as received from a provider. -/
structure SubPropSchema where
  type : Option String
  description : Option String
  deriving DecidableEq, Repr

/-- Item schema of an array-typed field, as received from a provider. -/
structure ItemsSchema where
  type : Option String
  properties : Option (List (String × SubPropSchema))
  required : Option (List String)
  deriving DecidableEq, Repr

/-- One property of a provider tool input schema. -/
structure PropSchema where
  type : Option String
  items : Option ItemsSchema
  description : Option String
  deriving DecidableEq, Repr

/-- Provider-native input schema of a tool (the inputSchema field). -/
structure InputSchema where
  schemaField : Option String
  type : Option String
  properties : Option (List (String × PropSchema))
  required : Option (List String)
  additionalProperties : Option Bool
  deriving DecidableEq, Repr

/-- A tool as seen by the front end: the provider-native descriptor tagged
with the owning server name (the proxy adds serverName by object spread). -/
structure Tool where
  name : String
  description : String
  serverName : String
  inputSchema : Option InputSchema
  deriving DecidableEq, Repr

/-- A tool as reported by a backend, before the proxy tags it. -/
structure RawTool where
  name : String
  description : String
  inputSchema : Option InputSchema
  deriving DecidableEq, Repr

/-- The object spread that tags a backend tool with its server name. -/
def tagTool (serverName : String) (t : RawTool) : Tool :=
  { name := t.name, description := t.description,
    serverName := serverName, inputSchema := t.inputSchema }

/-- Converted sub-property of object array items. -/
structure ConvertedSubProp where
  type : SchemaType
  description : String
  deriving DecidableEq, Repr

/-- Converted items of an array-typed property. -/
structure ConvertedItems where
  type : SchemaType
  properties : Option (List (String × ConvertedSubProp))
  required : Option (List String)
  deriving DecidableEq, Repr

/-- Converted property of a function declaration. -/
structure ConvertedProp where
  type : SchemaType
  items : Option ConvertedItems
  description : String
  deriving DecidableEq, Repr

/-- Parameters object of a function declaration. -/
structure FunctionParameters where
  type : SchemaType
  properties : List (String × ConvertedProp)
  required : List String
  deriving DecidableEq, Repr

/-- A normalized function declaration. -/
structure FunctionDeclaration where
  name : String
  description : String
  parameters : FunctionParameters
  deriving DecidableEq, Repr

/-- Characters stripped by cleanDescription: apostrophe, double quote,
backtick (the regex character class in the source). -/
def isQuoteChar (c : Char) : Bool :=
  c == Char.ofNat 39 || c == Char.ofNat 34 || c == Char.ofNat 96

/-- cleanDescription: strip quote characters; undefined becomes the empty
string. -/
def cleanDescription (d : Option String) : String :=
  match d with
  | none => ""
  | some s => String.mk (s.data.filter (fun c => !isQuoteChar c))

/-- Type mapping for non-array properties and object-item sub-properties:
string, number and boolean map to themselves, everything else to OBJECT. -/
def mapPrimType (t : Option String) : SchemaType :=
  match t with
  | some "string" => SchemaType.STRING
  | some "number" => SchemaType.NUMBER
  | some "boolean" => SchemaType.BOOLEAN
  | _ => SchemaType.OBJECT

/-- Item-type mapping for array properties: the optional chain over
items and its type, defaulting to STRING when absent or unrecognized. -/
def mapItemType (items : Option ItemsSchema) : SchemaType :=
  match items.bind ItemsSchema.type with
  | some "string" => SchemaType.STRING
  | some "number" => SchemaType.NUMBER
  | some "boolean" => SchemaType.BOOLEAN
  | some "object" => SchemaType.OBJECT
  | _ => SchemaType.STRING

/-- Conversion of one sub-property of object array items. -/
def convertSubProp (sp : SubPropSchema) : ConvertedSubProp :=
  { type := mapPrimType sp.type, description := cleanDescription sp.description }

/-- Conversion of one property, following the forEach body of
convertToolToFunctionDeclaration. -/
def convertProp (prop : PropSchema) : ConvertedProp :=
  if prop.type == some "array" then
    let base : ConvertedItems :=
      { type := mapItemType prop.items, properties := none, required := none }
    let withObjectItems : ConvertedItems :=
      match prop.items.bind ItemsSchema.properties with
      | some subProps =>
          { base with
            properties := some (subProps.map (fun p => (p.1, convertSubProp p.2))),
            required := some ((prop.items.bind ItemsSchema.required).getD []) }
      | none => base
    { type := SchemaType.ARRAY, items := some withObjectItems,
      description := cleanDescription prop.description }
  else
    { type := mapPrimType prop.type, items := none,
      description := cleanDescription prop.description }

/-- convertToolToFunctionDeclaration: normalize one tool descriptor into a
function declaration. -/
def convertToolToFunctionDeclaration (tool : Tool) : FunctionDeclaration :=
  match tool.inputSchema with
  | none =>
      { name := tool.name, description := cleanDescription (some tool.description),
        parameters := { type := SchemaType.OBJECT, properties := [], required := [] } }
  | some s =>
      match s.properties with
      | none =>
          { name := tool.name, description := cleanDescription (some tool.description),
            parameters := { type := SchemaType.OBJECT, properties := [], required := [] } }
      | some props =>
          { name := tool.name, description := cleanDescription (some tool.description),
            parameters :=
              { type := SchemaType.OBJECT,
                properties := props.map (fun p => (p.1, convertProp p.2)),
                required := s.required.getD [] } }

/-- The filter predicate of filterAndConvertTools: skip tools without schema
properties and tools from the filesystem and docker-mcp servers. -/
def validTool (t : Tool) : Bool :=
  match t.inputSchema with
  | none => false
  | some s =>
      match s.properties with
      | none => false
      | some _ =>
          if (["filesystem", "docker-mcp"] : List String).contains t.serverName then false
          else true

/-- filterAndConvertTools: keep valid tools and convert each in order. -/
def filterAndConvertTools (tools : List Tool) : List FunctionDeclaration :=
  let validTools := tools.filter validTool
  validTools.map convertToolToFunctionDeclaration

/-!
The proxy server (server.js).  A registered backend is its last known tool
list (the connected client handle is abstracted away); the mcpClients map is
a key-unique association list.  Fallible external operations are oracles:
reading the config file, parsing JSON, launching a backend and discovering
its tools, and invoking one tool on a connected backend.
-/

/-- The value stored in the mcpClients map for one backend. -/
structure ClientInfo where
  tools : List RawTool
  deriving DecidableEq, Repr

/-- One provider spec from the configuration file. -/
structure ServerConfig where
  command : String
  args : List String
  env : List (String × String)
  deriving DecidableEq, Repr

/-- The parsed configuration file. -/
structure MCPConfig where
  mcpServers : List (String × ServerConfig)
  deriving DecidableEq, Repr

/-- loadConfig: read the config file then parse it; any failure in either
step falls to the catch branch, which returns an empty mcpServers mapping.
The file read and the JSON parse are oracle arguments. -/
def loadConfig (readResult : Except String String)
    (parse : String → Except String MCPConfig) : MCPConfig :=
  match readResult with
  | Except.error _ => { mcpServers := [] }
  | Except.ok contents =>
      match parse contents with
      | Except.error _ => { mcpServers := [] }
      | Except.ok cfg => cfg

/-- initializeClients: launch each configured provider in order.  The launch
oracle returns the discovered tool list, or none when spawning, connecting
or discovery fails (initializeMCPClient catches and returns null without
registering the backend). -/
def initializeClients (cfg : List (String × ServerConfig))
    (launch : String → ServerConfig → Option (List RawTool)) :
    List (String × ClientInfo) :=
  match cfg with
  | [] => []
  | (n, c) :: rest =>
      match launch n c with
      | some ts => (n, { tools := ts }) :: initializeClients rest launch
      | none => initializeClients rest launch

/-- The aggregated catalog sent in a tools_list frame: every registered
backend's tools, each tagged with its server name. -/
def allTools (clients : List (String × ClientInfo)) : List Tool :=
  clients.flatMap (fun p => p.2.tools.map (tagTool p.1))

/-- The source installs no handler for a backend child process exiting:
nothing in server.js ever removes or marks an mcpClients entry after
registration, so a crash leaves the registry exactly as it was. -/
def crashBackend (clients : List (String × ClientInfo)) (_name : String) :
    List (String × ClientInfo) :=
  clients

/-- One front-end request as parsed from JSON; the handler switches on the
type string and destructures the call_tool fields.  The args object is
abstracted to an opaque string. -/
structure Request where
  type : String
  serverName : String
  toolName : String
  args : String
  requestId : String
  deriving DecidableEq, Repr

/-- One frame written back to the front-end WebSocket. -/
inductive Frame where
  | toolsList (tools : List Tool)
  | toolResponse (requestId : String) (result : String)
  | errorNote (requestId : Option String) (error : String)
  deriving DecidableEq, Repr

/-- The correlation id a frame carries, if any.  The generic error frame of
the outer catch has none. -/
def frameRequestId : Frame → Option String
  | Frame.toolsList _ => none
  | Frame.toolResponse rid _ => some rid
  | Frame.errorNote rid _ => rid

/-- Result of handling one front-end message: the frames sent on that
session, the backend invocations performed, and whether the handler closed
the connection (it never does). -/
structure HandlerResult where
  frames : List Frame
  invoked : List (String × String)
  closed : Bool
  deriving DecidableEq, Repr

/-- The ws message handler of server.js.  list_tools answers with the
catalog; client_log only logs; call_tool looks the server up in mcpClients,
throws to the outer catch when absent (whose error frame carries no
requestId), and otherwise sends exactly one requestId-tagged frame built
from the invoke outcome; an unrecognized type throws to the outer catch. -/
def handleMessage (clients : List (String × ClientInfo))
    (invoke : String → String → String → Except String String)
    (req : Request) : HandlerResult :=
  if req.type == "list_tools" then
    { frames := [Frame.toolsList (allTools clients)], invoked := [], closed := false }
  else if req.type == "client_log" then
    { frames := [], invoked := [], closed := false }
  else if req.type == "call_tool" then
    match List.lookup req.serverName clients with
    | none =>
        { frames := [Frame.errorNote none ("MCP server " ++ req.serverName ++ " not found")],
          invoked := [], closed := false }
    | some _ =>
        match invoke req.serverName req.toolName req.args with
        | Except.ok r =>
            { frames := [Frame.toolResponse req.requestId r],
              invoked := [(req.serverName, req.toolName)], closed := false }
        | Except.error e =>
            { frames := [Frame.errorNote (some req.requestId) ("Tool execution failed: " ++ e)],
              invoked := [(req.serverName, req.toolName)], closed := false }
  else
    { frames := [Frame.errorNote none ("Unknown request type: " ++ req.type)],
      invoked := [], closed := false }

/-!
The browser-side WebSocket client (MCPWebSocketClient).  Pending-request
resolve callbacks are abstracted to opaque tokens; calling one is an effect.
-/

/-- One message the client can send to the proxy. -/
inductive OutMessage where
  | listToolsMsg
  | callToolMsg (serverName toolName args requestId : String)
  deriving DecidableEq, Repr

/-- One message the client can receive from the proxy. -/
inductive ServerMessage where
  | toolsListMsg (tools : List Tool)
  | toolResponseMsg (requestId : String) (response : String)
  | errorMsg (error : String)
  deriving DecidableEq, Repr

/-- Observable effects of the client's onmessage handler. -/
inductive ClientEffect where
  | settle (handlerToken : Nat) (response : String)
  | toolsCallbackInvoked (callbackToken : Nat) (tools : List Tool)
  | logError (message : String)
  deriving DecidableEq, Repr

/-- State of the MCPWebSocketClient instance. -/
structure ClientState where
  messageHandlers : List (String × Nat)
  toolsUpdateCallback : Option Nat
  connected : Bool
  messageQueue : List OutMessage
  deriving DecidableEq, Repr

/-- sendOrQueue: send immediately when connected, otherwise append to the
queue.  Returns the new state and the messages actually written. -/
def sendOrQueue (st : ClientState) (m : OutMessage) : ClientState × List OutMessage :=
  if st.connected then (st, [m])
  else ({ st with messageQueue := st.messageQueue ++ [m] }, [])

/-- callTool: register only a resolve handler under a fresh requestId, then
send (or queue) the call_tool message.  No reject handler is registered. -/
def callToolClient (st : ClientState) (serverName toolName args requestId : String)
    (resolveToken : Nat) : ClientState × List OutMessage :=
  let st1 := { st with messageHandlers := (requestId, resolveToken) :: st.messageHandlers }
  sendOrQueue st1 (OutMessage.callToolMsg serverName toolName args requestId)

/-- The onmessage switch of MCPWebSocketClient: tools_list invokes the
update callback, tool_response settles and removes the matching handler,
and error only logs to the console. -/
def onMessageClient (st : ClientState) (m : ServerMessage) :
    ClientState × List ClientEffect :=
  match m with
  | ServerMessage.toolsListMsg ts =>
      (st, match st.toolsUpdateCallback with
           | some cb => [ClientEffect.toolsCallbackInvoked cb ts]
           | none => [])
  | ServerMessage.toolResponseMsg rid resp =>
      match List.lookup rid st.messageHandlers with
      | some h =>
          ({ st with messageHandlers := st.messageHandlers.filter (fun p => p.1 != rid) },
           [ClientEffect.settle h resp])
      | none => (st, [])
  | ServerMessage.errorMsg e => (st, [ClientEffect.logError e])

/-- A concrete array-typed property whose provider omitted the item type. -/
def sampleArrayProp : PropSchema :=
  { type := some "array", items := none, description := none }

/-- A concrete tool descriptor exposing only sampleArrayProp. -/
def sampleArrayTool : Tool :=
  { name := "t", description := "d", serverName := "srv",
    inputSchema := some
      { schemaField := none, type := some "object",
        properties := some [("xs", sampleArrayProp)],
        required := none, additionalProperties := none } }

/-!
Helper lemmas shared by the claim theorems.
-/

/-- Every entry of the registry built by initializeClients comes from a
configured provider whose launch succeeded with exactly that tool list. -/
theorem mem_initializeClients_launched
    (launch : String → ServerConfig → Option (List RawTool)) (n : String)
    (info : ClientInfo) :
    ∀ cfg : List (String × ServerConfig), (n, info) ∈ initializeClients cfg launch →
      ∃ c, (n, c) ∈ cfg ∧ launch n c = some info.tools := by
  intro cfg
  induction cfg with
  | nil => intro h; simp [initializeClients] at h
  | cons hd tl ih =>
      obtain ⟨m, c⟩ := hd
      intro h
      cases hl : launch m c with
      | some ts =>
          simp only [initializeClients, hl] at h
          rcases List.mem_cons.mp h with heq | hmem
          · injection heq with h1 h2
            subst h1
            exact ⟨c, List.mem_cons_self _ _, by rw [h2]; exact hl⟩
          · obtain ⟨c2, hc2, hl2⟩ := ih hmem
            exact ⟨c2, List.mem_cons_of_mem _ hc2, hl2⟩
      | none =>
          simp only [initializeClients, hl] at h
          obtain ⟨c2, hc2, hl2⟩ := ih h
          exact ⟨c2, List.mem_cons_of_mem _ hc2, hl2⟩

/-- Dropping a provider that never launches from the configuration does not
change the registry initializeClients builds. -/
theorem initializeClients_filter_failed
    (launch : String → ServerConfig → Option (List RawTool)) (f : String)
    (hf : ∀ c, launch f c = none) :
    ∀ cfg : List (String × ServerConfig),
      initializeClients (cfg.filter (fun p => p.1 != f)) launch =
        initializeClients cfg launch := by
  intro cfg
  induction cfg with
  | nil => rfl
  | cons hd tl ih =>
      obtain ⟨m, c⟩ := hd
      by_cases hm : m = f
      · subst hm
        simp [List.filter_cons, initializeClients, hf c, ih]
      · have hk : (m != f) = true := bne_iff_ne.mpr hm
        cases hl : launch m c with
        | some ts => simp [List.filter_cons, hk, initializeClients, hl, ih]
        | none => simp [List.filter_cons, hk, initializeClients, hl, ih]

/-- The source filter predicate coincides with its explicit description. -/
theorem validTool_eq (t : Tool) :
    validTool t =
      ((t.inputSchema.bind InputSchema.properties).isSome
        && !(t.serverName == "filesystem" || t.serverName == "docker-mcp")) := by
  unfold validTool
  cases hs : t.inputSchema with
  | none => simp [hs]
  | some s =>
      cases hp : s.properties with
      | none => simp [hs, hp]
      | some props =>
          by_cases h1 : t.serverName = "filesystem"
          · simp [hs, hp, h1]
          · by_cases h2 : t.serverName = "docker-mcp"
            · simp [hs, hp, h2]
            · simp [hs, hp, h1, h2]

/-!
Claim theorems.
-/

/-- Claim C1 (counterexample): with an empty backend registry, a call_tool
request with correlation id r1 for the unknown server x is answered by a
single error frame carrying no correlation id at all, refuting that the
error notification is tagged with the submitted correlation id. -/
theorem unknownServer_error_not_tagged_cex :
    (handleMessage [] (fun _ _ _ => Except.ok "")
        { type := "call_tool", serverName := "x", toolName := "t",
          args := "", requestId := "r1" }).frames.map frameRequestId
      = [none] := by decide

/-- Claim C1 (amended): a call_tool request whose serverName is not a key of
the backend registry is answered by exactly one error notification whose
message names the missing server but which carries no correlation id (the
handler throws and the generic catch omits requestId), no backend invoke is
performed, and the connection is not closed. -/
theorem unknownServer_error_untagged_no_invoke
    (clients : List (String × ClientInfo))
    (invoke : String → String → String → Except String String)
    (req : Request)
    (htype : req.type = "call_tool")
    (hlook : List.lookup req.serverName clients = none) :
    handleMessage clients invoke req =
      { frames := [Frame.errorNote none ("MCP server " ++ req.serverName ++ " not found")],
        invoked := [], closed := false } := by
  simp [handleMessage, htype, hlook]

/-- Claim C1 (witness): the amended statement evaluated on the concrete
unknown server x. -/
theorem unknownServer_error_untagged_no_invoke_wit :
    handleMessage [] (fun _ _ _ => Except.ok "")
        { type := "call_tool", serverName := "x", toolName := "t",
          args := "", requestId := "r1" }
      = { frames := [Frame.errorNote none "MCP server x not found"],
          invoked := [], closed := false } :=
  unknownServer_error_untagged_no_invoke _ _ _ rfl rfl

/-- Claim C2: a call_tool request whose serverName resolves to a registered
backend is answered by exactly one frame, a tool_response frame on invoke
success or an error frame embedding the provider error message on failure,
and every frame sent carries the original correlation id. -/
theorem callTool_registered_exactly_one_tagged_frame
    (clients : List (String × ClientInfo))
    (invoke : String → String → String → Except String String)
    (req : Request) (info : ClientInfo)
    (htype : req.type = "call_tool")
    (hlook : List.lookup req.serverName clients = some info) :
    (handleMessage clients invoke req).frames =
      [match invoke req.serverName req.toolName req.args with
       | Except.ok r => Frame.toolResponse req.requestId r
       | Except.error e =>
           Frame.errorNote (some req.requestId) ("Tool execution failed: " ++ e)]
    ∧ ∀ f ∈ (handleMessage clients invoke req).frames,
        frameRequestId f = some req.requestId := by
  cases hr : invoke req.serverName req.toolName req.args with
  | ok r => constructor <;> simp [handleMessage, htype, hlook, hr, frameRequestId]
  | error e => constructor <;> simp [handleMessage, htype, hlook, hr, frameRequestId]

/-- Claim C2 (witness): a registered backend whose invoke succeeds yields
the single tool_response frame tagged r1. -/
theorem callTool_registered_exactly_one_tagged_frame_wit :
    (handleMessage [("srv", { tools := [] })] (fun _ _ _ => Except.ok "done")
        { type := "call_tool", serverName := "srv", toolName := "t",
          args := "a", requestId := "r1" }).frames
      = [Frame.toolResponse "r1" "done"] :=
  (callTool_registered_exactly_one_tagged_frame _ _ _ { tools := [] } rfl (by decide)).1

/-- Claim C3 (code evaluated at the failing input): backend a is registered
with one tool and its child process then crashes; the source installs no
exit handler, so the registry is unchanged and a subsequent list_tools
request still returns a catalog containing the crashed backend's tool. -/
theorem crashed_backend_tools_still_listed :
    (handleMessage
        (crashBackend
          [("a", { tools := [{ name := "read_file", description := "reads a file",
                               inputSchema := none }] })] "a")
        (fun _ _ _ => Except.ok "")
        { type := "list_tools", serverName := "", toolName := "",
          args := "", requestId := "" }).frames
      = [Frame.toolsList
          [{ name := "read_file", description := "reads a file",
             serverName := "a", inputSchema := none }]] := by decide

/-- Claim C4: when a provider f never launches, the registry has no entry
for f, the aggregated catalog contains no tool tagged with f, and removing
f from the configuration leaves the registry exactly unchanged. -/
theorem failed_provider_zero_capabilities_others_unaffected
    (cfg : List (String × ServerConfig))
    (launch : String → ServerConfig → Option (List RawTool))
    (f : String)
    (hf : ∀ c, launch f c = none) :
    (∀ info : ClientInfo, (f, info) ∉ initializeClients cfg launch)
    ∧ (∀ t ∈ allTools (initializeClients cfg launch), t.serverName ≠ f)
    ∧ initializeClients (cfg.filter (fun p => p.1 != f)) launch =
        initializeClients cfg launch := by
  refine ⟨?_, ?_, initializeClients_filter_failed launch f hf cfg⟩
  · intro info hmem
    obtain ⟨c, _, hl⟩ := mem_initializeClients_launched launch f info cfg hmem
    rw [hf c] at hl
    exact Option.noConfusion hl
  · intro t ht
    obtain ⟨p, hp, hmap⟩ := List.mem_flatMap.mp ht
    obtain ⟨r, _, hr⟩ := List.mem_map.mp hmap
    intro hsn
    obtain ⟨n, info⟩ := p
    have hsn2 : n = f := by rw [← hsn, ← hr]; rfl
    subst hsn2
    obtain ⟨c, _, hl⟩ := mem_initializeClients_launched launch n info cfg hp
    rw [hf c] at hl
    exact Option.noConfusion hl

/-- Claim C4 (witness): concrete configuration with a good and a bad
provider, where the bad one never launches: removing it from the
configuration leaves the built registry unchanged. -/
theorem failed_provider_zero_capabilities_others_unaffected_wit :
    initializeClients
        (([("good", { command := "cmd", args := [], env := [] }),
           ("bad", { command := "cmd2", args := [], env := [] })] :
            List (String × ServerConfig)).filter (fun p => p.1 != "bad"))
        (fun n _ => if n == "bad" then none else some [])
      = initializeClients
          [("good", { command := "cmd", args := [], env := [] }),
           ("bad", { command := "cmd2", args := [], env := [] })]
          (fun n _ => if n == "bad" then none else some []) :=
  (failed_provider_zero_capabilities_others_unaffected _ _ "bad" (fun _ => rfl)).2.2

/-- Claim C5: a tool property of array type whose provider omits the item
type (no items object, or an items object without a type) is normalized to
an ARRAY property whose items carry type STRING, and that property appears
in the converted declaration under its key. -/
theorem array_missing_item_type_defaults_string
    (tool : Tool) (s : InputSchema) (props : List (String × PropSchema))
    (key : String) (prop : PropSchema)
    (hs : tool.inputSchema = some s)
    (hp : s.properties = some props)
    (hmem : (key, prop) ∈ props)
    (harr : prop.type = some "array")
    (hnoitem : prop.items.bind ItemsSchema.type = none) :
    (key, convertProp prop) ∈ (convertToolToFunctionDeclaration tool).parameters.properties
    ∧ (convertProp prop).items.map ConvertedItems.type = some SchemaType.STRING := by
  constructor
  · simp only [convertToolToFunctionDeclaration, hs, hp]
    exact List.mem_map.mpr ⟨(key, prop), hmem, rfl⟩
  · cases hpp : prop.items.bind ItemsSchema.properties <;>
      simp [convertProp, harr, mapItemType, hnoitem, hpp]

/-- Claim C5 (witness): a concrete array-typed property with no items
object converts to an entry present in the declaration. -/
theorem array_missing_item_type_defaults_string_wit :
    ("xs", convertProp sampleArrayProp)
      ∈ (convertToolToFunctionDeclaration sampleArrayTool).parameters.properties :=
  (array_missing_item_type_defaults_string sampleArrayTool
      { schemaField := none, type := some "object",
        properties := some [("xs", sampleArrayProp)],
        required := none, additionalProperties := none }
      [("xs", sampleArrayProp)] "xs" sampleArrayProp rfl rfl (by simp) rfl rfl).1

/-- Claim C6: schema normalization is a pure function of the descriptor;
equal inputs produce equal normalized declarations. -/
theorem convertTool_deterministic (t1 t2 : Tool) (h : t1 = t2) :
    convertToolToFunctionDeclaration t1 = convertToolToFunctionDeclaration t2 := by
  rw [h]

/-- Claim C6 (witness): determinism evaluated at a concrete descriptor. -/
theorem convertTool_deterministic_wit :
    convertToolToFunctionDeclaration
        { name := "t", description := "d", serverName := "s", inputSchema := none }
      = convertToolToFunctionDeclaration
          { name := "t", description := "d", serverName := "s", inputSchema := none } :=
  convertTool_deterministic _ _ rfl

/-- Claim C7: a front-end request whose type is none of list_tools,
client_log and call_tool is answered by one error notification carrying a
human-readable message naming the unknown type, and the connection is not
closed. -/
theorem unknown_request_type_error_not_closed
    (clients : List (String × ClientInfo))
    (invoke : String → String → String → Except String String)
    (req : Request)
    (h1 : req.type ≠ "list_tools") (h2 : req.type ≠ "client_log")
    (h3 : req.type ≠ "call_tool") :
    handleMessage clients invoke req =
      { frames := [Frame.errorNote none ("Unknown request type: " ++ req.type)],
        invoked := [], closed := false } := by
  simp [handleMessage, h1, h2, h3]

/-- Claim C7 (witness): the unknown request type bogus evaluated on an
empty registry. -/
theorem unknown_request_type_error_not_closed_wit :
    handleMessage [] (fun _ _ _ => Except.ok "")
        { type := "bogus", serverName := "", toolName := "",
          args := "", requestId := "" }
      = { frames := [Frame.errorNote none "Unknown request type: bogus"],
          invoked := [], closed := false } :=
  unknown_request_type_error_not_closed _ _ _ (by decide) (by decide) (by decide)

/-- Claim C8: when the config file read fails, or it reads but does not
parse, loadConfig returns (rather than throws) the empty mcpServers
mapping, and initializing from it registers no backends. -/
theorem loadConfig_failure_empty_config
    (readResult : Except String String)
    (parse : String → Except String MCPConfig)
    (launch : String → ServerConfig → Option (List RawTool))
    (h : ∀ c, readResult = Except.ok c → ∃ m, parse c = Except.error m) :
    loadConfig readResult parse = { mcpServers := [] }
    ∧ initializeClients (loadConfig readResult parse).mcpServers launch = [] := by
  have h1 : loadConfig readResult parse = { mcpServers := [] } := by
    cases hr : readResult with
    | error e => simp [loadConfig]
    | ok c =>
        obtain ⟨m, hm⟩ := h c hr
        simp [loadConfig, hm]
  exact ⟨h1, by rw [h1]; rfl⟩

/-- Claim C8 (witness): an unreadable config file yields the empty
configuration. -/
theorem loadConfig_failure_empty_config_wit :
    loadConfig (Except.error "ENOENT") (fun _ => Except.ok { mcpServers := [] })
      = { mcpServers := [] } :=
  (loadConfig_failure_empty_config _ _ (fun _ _ => none)
    (fun _ hc => Except.noConfusion hc)).1

/-- Claim C9: after callTool registers a resolve handler for a request id,
receiving an error message leaves the client state (including the
pending-request handler table) unchanged, produces only a console log, and
the registered entry is still present, never settled. -/
theorem client_error_message_leaves_handlers
    (st : ClientState) (e serverName toolName args requestId : String) (tok : Nat) :
    onMessageClient ((callToolClient st serverName toolName args requestId tok).1)
        (ServerMessage.errorMsg e)
      = ((callToolClient st serverName toolName args requestId tok).1,
         [ClientEffect.logError e])
    ∧ (requestId, tok) ∈
        ((callToolClient st serverName toolName args requestId tok).1).messageHandlers := by
  refine ⟨rfl, ?_⟩
  by_cases hc : st.connected <;>
    simp [callToolClient, sendOrQueue, hc]

/-- Claim C10: filterAndConvertTools returns exactly the in-order
conversions of the tools that have schema properties and whose server is
neither filesystem nor docker-mcp. -/
theorem filterAndConvertTools_spec (tools : List Tool) :
    filterAndConvertTools tools =
      (tools.filter (fun t =>
          (t.inputSchema.bind InputSchema.properties).isSome
          && !(t.serverName == "filesystem" || t.serverName == "docker-mcp"))).map
        convertToolToFunctionDeclaration := by
  unfold filterAndConvertTools
  rw [List.filter_congr (fun t _ => validTool_eq t)]
